import Mathlib

/-!
Verification of the client-side audio/session pipeline of the
KaransCallAgent voice-assistant front end.

The development shallowly embeds the state and operations of:
* the transcription reconciler (`useConversationTranscription`);
* the attribute-propagation handler (`RoomHandler` in the App component);
* the App-level connection toggle and usage-limit handling (`toggleMic`,
  `handleUsageIncrement`);
* the LiveKit session manager (`useLiveKitRoom`: `connect`, `disconnect`,
  `setTtsVoice`, room event handlers);
* the audio recorder with voice-activity detection (`useAudioRecorder`:
  `startRecording`, `stopRecording`).

Stateful hook code is modelled as explicit state passing; the browsers
event loop serialises all callbacks, so each operation is a pure function
on the state.  Fallible external calls (token fetch, microphone permission,
detector initialisation, transport connect) are parameters of the
operations.
-/

namespace CallAgent

/-! ## Transcription reconciler (`useConversationTranscription`) -/

/-- Conversational role of a message (`'user' | 'assistant'`). -/
inductive Role where
  | user
  | assistant
deriving DecidableEq, Repr

/-- An inbound transcription segment (`ReceivedTranscriptionSegment`):
an id, the recognised text, and the `final` flag. -/
structure Seg where
  id : String
  text : String
  final : Bool
deriving DecidableEq, Repr

/-- A chat message of the reconciled conversation (`ChatMessage`). -/
structure Msg where
  id : String
  role : Role
  text : String
  isFinal : Bool
  timestamp : Nat
deriving DecidableEq, Repr

/-- State owned by the reconciler hook: the finalized message log
(`messages`) and the set of segment ids already processed as final
(`processedSegments`, modelled as a duplicate-free list). -/
structure TRState where
  messages : List Msg
  processed : List String
deriving DecidableEq, Repr

/-- The empty reconciler state. -/
def TRState.init : TRState := ⟨[], []⟩

/-- The stream prefix used to key processed segments
(`user-${segId}` / `agent-${segId}`). -/
def streamTag (r : Role) : String :=
  match r with
  | .user => "user-"
  | .assistant => "agent-"

/-- Key under which a segment id is recorded as processed. -/
def mkKey (r : Role) (segId : String) : String := streamTag r ++ segId

/-- Truthiness of the JavaScript test `text.trim()`: the trimmed text is
non-empty, i.e. the text contains a non-whitespace character. -/
def hasContent (s : String) : Bool :=
  s.data.any (fun c => !c.isWhitespace)

/-- One iteration of the `forEach` body in the user/agent transcription
effects: if the segment is final and its key is unseen, record the key;
if additionally the text is not blank, append a finalized message to the
log (after filtering out any message that already carries this id).
`now` stands for `Date.now()` at processing time. -/
def processSeg (r : Role) (now : Nat) (st : TRState) (seg : Seg) : TRState :=
  let key := mkKey r seg.id
  if seg.final && !(st.processed.contains key) then
    let processed := st.processed ++ [key]
    if hasContent seg.text then
      { messages :=
          st.messages.filter (fun m => m.id != key) ++
            [⟨key, r, seg.text, true, now⟩],
        processed := processed }
    else
      { st with processed := processed }
  else st

/-- A delivered transcription event: which stream it arrived on, the
wall-clock instant of processing, and the segment. -/
structure Ev where
  role : Role
  now : Nat
  seg : Seg
deriving DecidableEq, Repr

/-- Run the reconciler over a sequence of delivered segment events. -/
def runReconciler (evs : List Ev) : TRState :=
  evs.foldl (fun st e => processSeg e.role e.now st e.seg) TRState.init

/-- Modelled from the spec: the external `useTrackTranscription` /
`useVoiceAssistant` segment accumulator (not part of this repository)
maintains the per-stream segments array by updating the segment with a
matching id in place, or appending a segment with a new id. -/
def dedupeSegments (segs : List Seg) (s : Seg) : List Seg :=
  if segs.any (fun x => x.id == s.id) then
    segs.map (fun x => if x.id == s.id then s else x)
  else segs ++ [s]

/-- The segments array a stream's hook exposes after a sequence of
segment events. -/
def accumulate (evs : List Seg) : List Seg :=
  evs.foldl dedupeSegments []

/-- `currentUserInterim` / `currentAgentInterim`: the text of the last
segment of the stream's segments array, provided it is non-final and not
blank; otherwise `none`. -/
def currentInterim (segs : List Seg) : Option String :=
  match segs.getLast? with
  | none => none
  | some latest =>
      if !latest.final && hasContent latest.text then some latest.text
      else none

/-- `allMessages`: the read-time transcript — the finalized log plus one
synthetic non-final entry per stream that currently has interim text,
sorted by timestamp. -/
def allMessages (finalized : List Msg) (userInterim agentInterim : Option String)
    (now : Nat) : List Msg :=
  let r1 : List Msg :=
    match userInterim with
    | some t => finalized ++ [⟨"user-interim", Role.user, t, false, now⟩]
    | none => finalized
  let r2 : List Msg :=
    match agentInterim with
    | some t => r1 ++ [⟨"agent-interim", Role.assistant, t, false, now⟩]
    | none => r1
  r2.insertionSort (fun a b => a.timestamp ≤ b.timestamp)

/-! ## Attribute propagation (`RoomHandler` in the App component) -/

/-- One outbound participant-attribute write: the key/value pairs passed
to a single `setAttributes` call. -/
abbrev AttrWrite : Type := List (String × String)

/-- State of the `RoomHandler` component: whether the room is connected,
the last-propagated values held in `lastVoiceRef` / `lastPromptRef` /
`lastBusinessRef`, and the list of outbound attribute writes emitted so
far. -/
structure RHState where
  connected : Bool
  lastVoice : String
  lastPrompt : String
  lastBusiness : String
  writes : List AttrWrite
deriving DecidableEq

/-- The initial-setup effect: when the room is connected it writes all
three attributes unconditionally (without touching the diff refs). -/
def runInitialSetup (st : RHState) (ttsVoice agentPrompt businessDetails : String) :
    RHState :=
  if st.connected then
    { st with writes := st.writes ++
        [[("tts_voice", ttsVoice), ("agent_prompt", agentPrompt),
          ("business_details", businessDetails)]] }
  else st

/-- The voice-change effect: emit a `tts_voice` write only when connected
and the value differs from `lastVoiceRef`, then update the ref. -/
def runVoiceEffect (st : RHState) (ttsVoice : String) : RHState :=
  if st.connected && ttsVoice != st.lastVoice then
    { st with
      writes := st.writes ++ [[("tts_voice", ttsVoice)]],
      lastVoice := ttsVoice }
  else st

/-- The prompt/business-change effect: emit an `agent_prompt` +
`business_details` write only when connected and at least one of the two
values differs from its ref, then update both refs. -/
def runPromptEffect (st : RHState) (agentPrompt businessDetails : String) : RHState :=
  if st.connected && (agentPrompt != st.lastPrompt || businessDetails != st.lastBusiness) then
    { st with
      writes := st.writes ++
        [[("agent_prompt", agentPrompt), ("business_details", businessDetails)]],
      lastPrompt := agentPrompt,
      lastBusiness := businessDetails }
  else st

/-! ## App-level connection toggle and usage limit (App component) -/

/-- Response of the token endpoint `/api/livekit-token`:
`{url, token, room}` on success or `{error}` on failure. -/
structure TokenResp where
  url : String
  token : String
  room : String
  error : Option String
deriving DecidableEq, Repr

/-- The App's assistant state enum. -/
inductive AState where
  | IDLE
  | LISTENING
  | PROCESSING
  | SPEAKING
deriving DecidableEq, Repr

/-- State of the App component relevant to connection and usage limit:
the limit flag, the stored LiveKit credentials, the mic-active flag, the
connecting flag and the assistant state. -/
structure AppState where
  isLimitReached : Bool
  liveKitToken : Option String
  liveKitUrl : Option String
  isMicActive : Bool
  isConnecting : Bool
  astate : AState
deriving DecidableEq, Repr

/-- The App state on mount. -/
def AppState.init : AppState :=
  ⟨false, none, none, false, false, .IDLE⟩

/-- `toggleMic`, with the token-endpoint response as a parameter.
If the limit is reached it returns immediately; if credentials are held
it drops them (hang up); otherwise it fetches a token: a
`limit_reached` error raises the limit flag and stores nothing, any
other error is caught and logged, success stores url/token and activates
the mic.  `finally` clears the connecting flag on every path of the
fetch branch. -/
def toggleMic (st : AppState) (resp : TokenResp) : AppState :=
  if st.isLimitReached then st
  else
    match st.liveKitToken with
    | some _ =>
        { st with liveKitToken := none, liveKitUrl := none,
                  isMicActive := false, astate := .IDLE }
    | none =>
        let s1 := { st with isConnecting := true }
        match resp.error with
        | some e =>
            if e == "limit_reached" then
              { s1 with isLimitReached := true, isConnecting := false }
            else
              { s1 with isConnecting := false }
        | none =>
            { s1 with liveKitUrl := some resp.url,
                      liveKitToken := some resp.token,
                      isMicActive := true, astate := .LISTENING,
                      isConnecting := false }

/-- Response of the usage increment endpoint. -/
structure UsageResp where
  count : Nat
  limit : Nat
  limited : Bool
deriving DecidableEq, Repr

/-- `handleUsageIncrement`: when the server reports the limit hit, raise
the flag and drop the stored credentials (force-disconnect). -/
def handleUsageIncrement (st : AppState) (resp : UsageResp) : AppState :=
  if resp.limited then
    { st with isLimitReached := true, liveKitToken := none, liveKitUrl := none }
  else st

/-- Whether a LiveKit room session is mounted: the `LiveKitRoom`
component renders only when both credentials are held and the limit flag
is not set (`isLiveKitConnected && !isLimitReached`). -/
def roomSessionActive (st : AppState) : Bool :=
  st.liveKitToken.isSome && st.liveKitUrl.isSome && !st.isLimitReached

/-! ## LiveKit session manager (`useLiveKitRoom`) -/

/-- State of the `useLiveKitRoom` hook together with the transport-level
set of live room sessions.  `room` is the React `room` state (a room
object id); `liveRooms` lists the ids of rooms whose transport connect
has succeeded and which have not been disconnected; `writes` records
outbound attribute writes and `logs` diagnostic messages. -/
structure LKState where
  room : Option Nat
  liveRooms : List Nat
  isConnected : Bool
  isConnecting : Bool
  isMicEnabled : Bool
  error : Option String
  roomName : Option String
  nextRoomId : Nat
  writes : List (String × String)
  logs : List String
deriving DecidableEq, Repr

/-- The hook's initial state. -/
def LKState.init : LKState :=
  ⟨none, [], false, false, false, none, none, 0, [], []⟩

/-- The `connect()` procedure, as the list of states reached at each
observable point of its execution (the last element is the state when
the call completes).  `resp` is the token-endpoint response and
`transportOk` whether `newRoom.connect` succeeds.

Order of the source: set connecting; fetch the token (an `error` field
throws into the catch); create a new `Room`; `await newRoom.connect`
(on success the `Connected` handler fires); `setRoom(newRoom)` — which,
through the `useEffect` cleanup keyed on `room`, disconnects the
previously held room, firing that room's `Disconnected` handler; finally
enable the microphone. -/
def connectTrace (st : LKState) (resp : TokenResp) (transportOk : Bool) :
    List LKState :=
  let s1 := { st with isConnecting := true, error := none }
  match resp.error with
  | some e => [s1, { s1 with isConnecting := false, error := some e }]
  | none =>
      let r := st.nextRoomId
      let s2 := { s1 with nextRoomId := st.nextRoomId + 1 }
      if transportOk then
        let s3 := { s2 with
          liveRooms := s2.liveRooms ++ [r],
          isConnected := true, isConnecting := false,
          roomName := some resp.room }
        let s4 :=
          match st.room with
          | some old =>
              { s3 with room := some r,
                        liveRooms := s3.liveRooms.erase old,
                        isConnected := false, isMicEnabled := false,
                        roomName := none }
          | none => { s3 with room := some r }
        let s5 := { s4 with isMicEnabled := true }
        [s1, s2, s3, s4, s5]
      else
        [s1, s2, { s2 with isConnecting := false, error := some "connect failed" }]

/-- The state when `connect()` has completed. -/
def connectRun (st : LKState) (resp : TokenResp) (transportOk : Bool) : LKState :=
  (connectTrace st resp transportOk).getLastD st

/-- `disconnect()`: disconnect the held room (if any) — firing its
`Disconnected` handler — drop it, and reset the state record. -/
def disconnectOp (st : LKState) : LKState :=
  let s1 :=
    match st.room with
    | some r => { st with liveRooms := st.liveRooms.erase r, room := none }
    | none => st
  { s1 with isConnected := false, isConnecting := false, isMicEnabled := false,
            error := none, roomName := none }

/-- A transport-initiated disconnect of the held room: the room's
`Disconnected` handler clears the connected/mic/roomName state, but the
React `room` state is not cleared. -/
def remoteDisconnected (st : LKState) : LKState :=
  match st.room with
  | some r =>
      { st with liveRooms := st.liveRooms.erase r,
                isConnected := false, isMicEnabled := false, roomName := none }
  | none => st

/-- `setTtsVoice(voice)`: skipped (with a log line) when no room object
is held; otherwise the attribute write is emitted. -/
def setTtsVoice (st : LKState) (voice : String) : LKState :=
  match st.room with
  | none => { st with logs := st.logs ++ ["Cannot set TTS voice - not connected"] }
  | some _ =>
      { st with writes := st.writes ++ [("tts_voice", voice)],
                logs := st.logs ++ ["TTS voice set to: " ++ voice] }

/-! ## Audio recorder with VAD (`useAudioRecorder`) -/

/-- A captured media track: live until `stop()` is called on it. -/
structure Track where
  stopped : Bool
deriving DecidableEq, Repr

/-- A handle to the detector instance; `pauseThrows` records whether its
`pause()` call raises when invoked. -/
structure VadHandle where
  pauseThrows : Bool
deriving DecidableEq, Repr

/-- State of the `useAudioRecorder` hook.  `stream` holds the tracks of
the captured media stream (if one is referenced), `audioCtx` the open
audio-analysis context (its flag records whether `close()` fails —
that failure is caught by the source), `analyser` whether an analyser
node is set. -/
structure ARState where
  isRecording : Bool
  error : Option String
  analyser : Bool
  isSpeechDetected : Bool
  vad : Option VadHandle
  stream : Option (List Track)
  audioCtx : Option Bool
deriving DecidableEq, Repr

/-- The hook's initial state. -/
def ARState.init : ARState :=
  ⟨false, none, false, false, none, none, none⟩

/-- Environment of a `startRecording()` call: whether `window.vad` is
loaded, whether the browser grants the microphone, and whether
`MicVAD.new` succeeds. -/
structure StartEnv where
  vadAvailable : Bool
  micGranted : Bool
  vadInitOk : Bool
deriving DecidableEq, Repr

/-- `startRecording()`.  Order of the source: clear the error; throw if
the VAD library is not loaded; request the capture stream (a permission
denial throws here, before `streamRef` is assigned); store the stream;
initialise the detector (a failure here throws with the stream already
stored); on success attach the detector, start it, set the recording
flag, and set up the analysis context and analyser.  The catch clause
stores the error message. -/
def startRecording (env : StartEnv) (st : ARState) : ARState :=
  let s0 := { st with error := none }
  if !env.vadAvailable then
    { s0 with error := some "VAD library not loaded. Please check CDN script in index.html" }
  else if !env.micGranted then
    { s0 with error := some "Permission denied" }
  else
    let s1 := { s0 with stream := some [⟨false⟩] }
    if !env.vadInitOk then
      { s1 with error := some "VAD initialisation failed" }
    else
      { s1 with vad := some ⟨false⟩, isRecording := true,
                audioCtx := some false, analyser := true }

/-- The steps of `stopRecording()` that follow the detector halt: stop
every track of the referenced stream and drop the reference; close the
audio context (its failure is caught by `.catch`, so it cannot abort)
and drop it; clear the recording flag, the speech-active flag and the
analyser. -/
def stopRest (st : ARState) : ARState :=
  let s1 := { st with stream := none }
  let s2 := { s1 with audioCtx := none }
  { s2 with isRecording := false, isSpeechDetected := false, analyser := false }

/-- `stopRecording()`.  The detector is halted first; its `pause()` call
is not guarded, so if it throws, the exception propagates out of the
callback and none of the later steps run.  The second component of the
result is the list of track objects of the previously captured stream as
the caller can still observe them after the call. -/
def stopRecording (st : ARState) : ARState × List Track :=
  match st.vad with
  | some v =>
      if v.pauseThrows then
        (st, (st.stream.getD []))
      else
        ((stopRest { st with vad := none }),
          ((st.stream.getD []).map (fun _ => ⟨true⟩)))
  | none =>
      (stopRest st, ((st.stream.getD []).map (fun _ => ⟨true⟩)))

/-! ## Helper lemmas -/

/-- `processSeg` preserves duplicate-freeness of the message ids: a new
final message is appended only after every message with the same id has
been filtered out. -/
theorem processSeg_nodup (r : Role) (now : Nat) (st : TRState) (seg : Seg)
    (h : (st.messages.map Msg.id).Nodup) :
    (((processSeg r now st seg).messages.map Msg.id)).Nodup := by
  by_cases hfin : seg.final = true
  · by_cases hcont : mkKey r seg.id ∈ st.processed
    · simpa [processSeg, hfin, hcont] using h
    · by_cases ht : hasContent seg.text = false
      · simpa [processSeg, hfin, hcont, ht] using h
      · rw [Bool.not_eq_false] at ht
        have hmsg : (processSeg r now st seg).messages =
            st.messages.filter (fun m => m.id != mkKey r seg.id) ++
              [⟨mkKey r seg.id, r, seg.text, true, now⟩] := by
          simp [processSeg, hfin, hcont, ht]
        rw [hmsg]
        simp only [List.map_append, List.map_cons, List.map_nil]
        rw [List.nodup_append]
        refine ⟨?_, List.nodup_singleton _, ?_⟩
        · exact ((List.filter_sublist st.messages).map Msg.id).nodup h
        · intro a ha
          simp only [List.mem_map, List.mem_filter] at ha
          obtain ⟨m, ⟨_, hm⟩, rfl⟩ := ha
          simp only [bne_iff_ne, ne_eq, decide_eq_true_eq] at hm
          simp [hm]
  · simpa [processSeg, hfin] using h

/-- Running the reconciler from a state with duplicate-free message ids
keeps the message ids duplicate-free. -/
theorem foldl_processSeg_nodup (evs : List Ev) (st : TRState)
    (h : (st.messages.map Msg.id).Nodup) :
    (((evs.foldl (fun s e => processSeg e.role e.now s e.seg) st).messages.map Msg.id)).Nodup := by
  induction evs generalizing st with
  | nil => exact h
  | cons e evs ih =>
      exact ih _ (processSeg_nodup e.role e.now st e.seg h)

/-- If the ids of a message list are duplicate-free, at most one of its
entries carries any given id. -/
theorem filter_id_length_le_one (l : List Msg) (k : String)
    (h : (l.map Msg.id).Nodup) :
    (l.filter (fun m => m.id == k)).length ≤ 1 := by
  induction l with
  | nil => simp
  | cons m l ih =>
      simp only [List.map_cons, List.nodup_cons] at h
      obtain ⟨hm, hl⟩ := h
      by_cases hk : m.id = k
      · have hnil : l.filter (fun m => m.id == k) = [] := by
          apply List.filter_eq_nil_iff.mpr
          intro a ha
          simp only [beq_iff_eq]
          intro hak
          exact hm (List.mem_map.mpr ⟨a, ha, by rw [hak, hk]⟩)
        simp [List.filter_cons, hk, hnil]
      · simpa [List.filter_cons, hk] using ih hl

/-- Sorting is a permutation, so it preserves `countP`. -/
theorem countP_insertionSort (l : List Msg) (le : Msg → Msg → Prop)
    [DecidableRel le] (p : Msg → Bool) :
    (l.insertionSort le).countP p = l.countP p :=
  (List.perm_insertionSort le l).countP_eq p

/-! ## Claim theorems -/

/-- C1: For every sequence of transcription segment events delivered to
the reconciler and for every segment id, the finalized message log
contains at most one final message with that id; and once an id has been
processed as final, re-delivery of a final segment with the same id
leaves the reconciler state (and hence the finalized log) unchanged. -/
theorem C1_idempotent_finalization (evs : List Ev) :
    (∀ k : String,
      ((runReconciler evs).messages.filter (fun m => m.id == k)).length ≤ 1) ∧
    (∀ (r : Role) (now : Nat) (seg : Seg), seg.final = true →
      mkKey r seg.id ∈ (runReconciler evs).processed →
      processSeg r now (runReconciler evs) seg = runReconciler evs) := by
  constructor
  · intro k
    exact filter_id_length_le_one _ k
      (foldl_processSeg_nodup evs TRState.init (by simp [TRState.init]))
  · intro r now seg hfin hcont
    simp [processSeg, hfin, hcont]

/-- Witness for C1 at a concrete event sequence: after a final segment
`A` is processed, its re-delivery (with the same id) is a no-op. -/
theorem C1_idempotent_finalization_witness :
    ((runReconciler [⟨.user, 1, ⟨"A", "hi", true⟩⟩]).messages.filter
        (fun m => m.id == "user-A")).length ≤ 1 ∧
    processSeg .user 2 (runReconciler [⟨.user, 1, ⟨"A", "hi", true⟩⟩]) ⟨"A", "hi", true⟩ =
      runReconciler [⟨.user, 1, ⟨"A", "hi", true⟩⟩] :=
  ⟨(C1_idempotent_finalization [⟨.user, 1, ⟨"A", "hi", true⟩⟩]).1 "user-A",
   (C1_idempotent_finalization [⟨.user, 1, ⟨"A", "hi", true⟩⟩]).2 .user 2
     ⟨"A", "hi", true⟩ rfl (by decide)⟩

/-- C9: a final segment with blank (whitespace-only) text appends no
message but records its id as processed, so any later final re-emission
of the same id — even with non-empty text — changes nothing and is
never appended to the log. -/
theorem C9_blank_final_poisons_id (r : Role) (n n2 : Nat) (st : TRState)
    (seg seg2 : Seg)
    (hfin : seg.final = true)
    (hnew : mkKey r seg.id ∉ st.processed)
    (hblank : hasContent seg.text = false)
    (hid : seg2.id = seg.id) (hfin2 : seg2.final = true) :
    (processSeg r n st seg).messages = st.messages ∧
    (processSeg r n st seg).processed = st.processed ++ [mkKey r seg.id] ∧
    processSeg r n2 (processSeg r n st seg) seg2 = processSeg r n st seg := by
  have h1 : processSeg r n st seg =
      { st with processed := st.processed ++ [mkKey r seg.id] } := by
    simp [processSeg, hfin, hnew, hblank]
  refine ⟨by rw [h1], by rw [h1], ?_⟩
  have hcont2 : mkKey r seg2.id ∈ st.processed ++ [mkKey r seg.id] := by
    simp [mkKey, hid]
  rw [h1]
  simp [processSeg, hfin2, hcont2]

/-- Witness for C9: a blank final segment `A`, then a non-empty final
re-emission of `A`; the log stays empty. -/
theorem C9_blank_final_poisons_id_witness :
    (processSeg .user 1 TRState.init ⟨"A", " ", true⟩).messages = [] ∧
    (processSeg .user 1 TRState.init ⟨"A", " ", true⟩).processed = ["user-A"] ∧
    processSeg .user 2 (processSeg .user 1 TRState.init ⟨"A", " ", true⟩) ⟨"A", "hello", true⟩ =
      processSeg .user 1 TRState.init ⟨"A", " ", true⟩ := by
  have h := C9_blank_final_poisons_id .user 1 2 TRState.init ⟨"A", " ", true⟩
    ⟨"A", "hello", true⟩ rfl (by decide) (by decide) rfl rfl
  simpa [TRState.init] using h

/-- C7: after non-final events `(A, "foo")` then `(A, "foobar")` on one
stream, the stream's exposed current interim text is exactly `"foobar"`;
the read-time transcript built from it contains no `"foo"` entry; and
(provided the finalized log does not use the reserved synthetic ids)
each stream contributes at most one synthetic interim entry at read
time. -/
theorem C7_interim_replacement :
    currentInterim (accumulate [⟨"A", "foo", false⟩, ⟨"A", "foobar", false⟩]) =
      some "foobar" ∧
    (allMessages []
        (currentInterim (accumulate [⟨"A", "foo", false⟩, ⟨"A", "foobar", false⟩]))
        none 5).all (fun m => m.text != "foo") = true ∧
    (∀ (finalized : List Msg) (ui ai : Option String) (now : Nat),
      (∀ m ∈ finalized, m.id ≠ "user-interim" ∧ m.id ≠ "agent-interim") →
      (allMessages finalized ui ai now).countP (fun m => m.id == "user-interim") ≤ 1 ∧
      (allMessages finalized ui ai now).countP (fun m => m.id == "agent-interim") ≤ 1) := by
  refine ⟨by decide, by decide, ?_⟩
  intro finalized ui ai now hres
  have hu : finalized.countP (fun m => m.id == "user-interim") = 0 := by
    rw [List.countP_eq_zero]
    intro m hm
    simpa using (hres m hm).1
  have ha : finalized.countP (fun m => m.id == "agent-interim") = 0 := by
    rw [List.countP_eq_zero]
    intro m hm
    simpa using (hres m hm).2
  unfold allMessages
  cases ui <;> cases ai <;>
    simp [countP_insertionSort, List.countP_append, hu, ha]

/-- Witness for C7's quantified part at a concrete transcript. -/
theorem C7_interim_replacement_witness :
    (allMessages [⟨"user-s1", .user, "hi", true, 1⟩] (some "foo") (some "bar") 9).countP
        (fun m => m.id == "user-interim") ≤ 1 ∧
    (allMessages [⟨"user-s1", .user, "hi", true, 1⟩] (some "foo") (some "bar") 9).countP
        (fun m => m.id == "agent-interim") ≤ 1 :=
  C7_interim_replacement.2.2 [⟨"user-s1", .user, "hi", true, 1⟩]
    (some "foo") (some "bar") 9 (by decide)

/-- A successful token-endpoint response, as in end-to-end scenario A. -/
def okResp : TokenResp := ⟨"wss://x", "t", "voice-assistant", none⟩

/-- C2 counterexample: starting from the state reached by a completed
successful `connect()` (which is `connected` and holds one live room),
a second `connect()` is not a no-op and does not first tear down the
prior session: its execution trace reaches a state holding two live room
sessions simultaneously. -/
theorem C2_counterexample_two_live_sessions :
    (connectRun LKState.init okResp true).isConnected = true ∧
    (connectRun LKState.init okResp true).liveRooms.length = 1 ∧
    (connectTrace (connectRun LKState.init okResp true) okResp true).any
      (fun s => s.liveRooms.length == 2) = true ∧
    connectRun (connectRun LKState.init okResp true) okResp true ≠
      connectRun LKState.init okResp true := by
  decide

/-- C2 (amended): a second `connect()` tears the prior session down only
after the new transport connection is established — two live sessions
are held momentarily — but once the call completes at most one live
session remains: on a successful path exactly the newly created room,
and on every failure path the live sessions are unchanged. -/
theorem C2_connect_single_live_on_completion (st : LKState) (resp : TokenResp)
    (transportOk : Bool)
    (hq : st.liveRooms = st.room.toList) :
    (connectRun st resp transportOk).liveRooms.length ≤ 1 ∧
    (resp.error = none → transportOk = true →
      (connectRun st resp transportOk).liveRooms = [st.nextRoomId] ∧
      (connectRun st resp transportOk).room = some st.nextRoomId) := by
  cases hre : resp.error with
  | some e =>
      refine ⟨?_, by intro h _; exact Option.noConfusion h⟩
      simp [connectRun, connectTrace, hre, hq]
      cases st.room <;> simp
  | none =>
      cases transportOk with
      | false =>
          refine ⟨?_, by intro _ h; exact absurd h (by simp)⟩
          simp [connectRun, connectTrace, hre, hq]
          cases st.room <;> simp
      | true =>
          cases hr : st.room with
          | none =>
              constructor
              · simp [connectRun, connectTrace, hre, hr, hq]
              · intro _ _
                simp [connectRun, connectTrace, hre, hr, hq]
          | some old =>
              have hlr : st.liveRooms = [old] := by simp [hq, hr]
              constructor
              · simp [connectRun, connectTrace, hre, hr, hlr]
              · intro _ _
                simp [connectRun, connectTrace, hre, hr, hlr]

/-- Witness for the amended C2 at a concrete second `connect()` from the
post-first-connect state. -/
theorem C2_connect_single_live_on_completion_witness :
    (connectRun (connectRun LKState.init okResp true) okResp true).liveRooms.length ≤ 1 ∧
    (connectRun (connectRun LKState.init okResp true) okResp true).liveRooms = [1] ∧
    (connectRun (connectRun LKState.init okResp true) okResp true).room = some 1 := by
  have h := C2_connect_single_live_on_completion (connectRun LKState.init okResp true)
    okResp true (by decide)
  exact ⟨h.1, (h.2 rfl rfl).1, (h.2 rfl rfl).2⟩

/-- C5: with the room connected, running the attribute-propagation
effects twice in succession with an unchanged value produces exactly the
writes of a single run (one outbound write when the value changed), and
a run whose value equals the last-propagated ref emits nothing. -/
theorem C5_attribute_coalescing (st : RHState) (v p b : String)
    (hc : st.connected = true) :
    runVoiceEffect (runVoiceEffect st v) v = runVoiceEffect st v ∧
    (v ≠ st.lastVoice → (runVoiceEffect st v).writes.length = st.writes.length + 1) ∧
    (v = st.lastVoice → runVoiceEffect st v = st) ∧
    runPromptEffect (runPromptEffect st p b) p b = runPromptEffect st p b ∧
    (p = st.lastPrompt → b = st.lastBusiness → runPromptEffect st p b = st) := by
  refine ⟨?_, ?_, ?_, ?_, ?_⟩
  · by_cases hv : v = st.lastVoice
    · simp [runVoiceEffect, hv]
    · have h1 : runVoiceEffect st v =
          { st with writes := st.writes ++ [[("tts_voice", v)]], lastVoice := v } := by
        simp [runVoiceEffect, hc, hv]
      rw [h1]
      simp [runVoiceEffect]
  · intro hv
    simp [runVoiceEffect, hc, hv]
  · intro hv
    simp [runVoiceEffect, hv]
  · by_cases hp : p = st.lastPrompt ∧ b = st.lastBusiness
    · simp [runPromptEffect, hp.1, hp.2]
    · have hcond : (st.connected && (p != st.lastPrompt || b != st.lastBusiness)) = true := by
        rw [Classical.not_and_iff_or_not_not] at hp
        rcases hp with hp | hp <;> simp [hc, hp]
      have h1 : runPromptEffect st p b =
          { st with writes := st.writes ++ [[("agent_prompt", p), ("business_details", b)]],
                    lastPrompt := p, lastBusiness := b } := by
        rw [runPromptEffect, if_pos hcond]
      rw [h1]
      simp [runPromptEffect]
  · intro hp hb
    simp [runPromptEffect, hp, hb]

/-- Witness for C5 at concrete values. -/
theorem C5_attribute_coalescing_witness :
    runVoiceEffect (runVoiceEffect ⟨true, "arcas", "", "", []⟩ "aura") "aura" =
      runVoiceEffect ⟨true, "arcas", "", "", []⟩ "aura" ∧
    (runVoiceEffect ⟨true, "arcas", "", "", []⟩ "aura").writes.length = 1 := by
  have h := C5_attribute_coalescing ⟨true, "arcas", "", "", []⟩ "aura" "" "" rfl
  exact ⟨h.1, h.2.1 (by decide)⟩

/-- C6 counterexample: after a successful `connect()` followed by a
transport-initiated disconnect, the state is no longer connected but the
room object is still held, so `setTtsVoice` emits an outbound attribute
write while not connected — refuting "emits only while connected". -/
theorem C6_counterexample_write_while_disconnected :
    (remoteDisconnected (connectRun LKState.init okResp true)).isConnected = false ∧
    (setTtsVoice (remoteDisconnected (connectRun LKState.init okResp true)) "aura").writes =
      [("tts_voice", "aura")] := by
  decide

/-- C6 (amended): `setTtsVoice` emits an outbound write exactly when a
room object is held (set on a successful `connect()`, cleared only by an
explicit `disconnect()`); an attempt while no room is held changes
nothing but the diagnostic log — silently skipped, never queued.
Holding a room is weaker than being connected: after a
transport-initiated disconnect a write is still attempted. -/
theorem C6_write_gated_on_room_handle (st : LKState) (v : String) :
    (st.room = none →
      setTtsVoice st v =
        { st with logs := st.logs ++ ["Cannot set TTS voice - not connected"] }) ∧
    ((setTtsVoice st v).writes = st.writes ↔ st.room = none) := by
  constructor
  · intro h
    simp [setTtsVoice, h]
  · cases h : st.room with
    | none => simp [setTtsVoice, h]
    | some r =>
        simp only [setTtsVoice, h]
        constructor
        · intro hw
          have := congrArg List.length hw
          simp at this
        · intro hcon
          exact Option.noConfusion hcon

/-- Witness for the amended C6: with no room held, the call is a pure
log entry; after connecting, a write is emitted. -/
theorem C6_write_gated_on_room_handle_witness :
    setTtsVoice LKState.init "aura" =
      { LKState.init with logs := ["Cannot set TTS voice - not connected"] } ∧
    ((setTtsVoice (connectRun LKState.init okResp true) "aura").writes =
        (connectRun LKState.init okResp true).writes ↔
      (connectRun LKState.init okResp true).room = none) := by
  constructor
  · have h := (C6_write_gated_on_room_handle LKState.init "aura").1 rfl
    simpa [LKState.init] using h
  · exact (C6_write_gated_on_room_handle (connectRun LKState.init okResp true) "aura").2

/-- C8: a `limit_reached` token-endpoint response during a connection
attempt stores no credentials, mounts no room session, raises the limit
flag, and blocks every further `toggleMic` attempt while the flag is
set. -/
theorem C8_limit_reached_blocks_connection (st : AppState) (resp : TokenResp)
    (hl : st.isLimitReached = false)
    (ht : st.liveKitToken = none)
    (hu : st.liveKitUrl = none)
    (he : resp.error = some "limit_reached") :
    (toggleMic st resp).liveKitToken = none ∧
    (toggleMic st resp).liveKitUrl = none ∧
    (toggleMic st resp).isLimitReached = true ∧
    roomSessionActive (toggleMic st resp) = false ∧
    (∀ resp2 : TokenResp, toggleMic (toggleMic st resp) resp2 = toggleMic st resp) := by
  have h1 : toggleMic st resp =
      { st with isLimitReached := true, isConnecting := false } := by
    simp [toggleMic, hl, ht, he]
  refine ⟨?_, ?_, ?_, ?_, ?_⟩
  · simp [h1, ht]
  · simp [h1, hu]
  · simp [h1]
  · simp [roomSessionActive, h1, ht]
  · intro resp2
    rw [h1]
    simp [toggleMic]

/-- Witness for C8: scenario B from the App's initial state. -/
theorem C8_limit_reached_blocks_connection_witness :
    (toggleMic AppState.init ⟨"", "", "", some "limit_reached"⟩).liveKitToken = none ∧
    (toggleMic AppState.init ⟨"", "", "", some "limit_reached"⟩).isLimitReached = true ∧
    roomSessionActive (toggleMic AppState.init ⟨"", "", "", some "limit_reached"⟩) = false := by
  have h := C8_limit_reached_blocks_connection AppState.init
    ⟨"", "", "", some "limit_reached"⟩ rfl rfl rfl rfl
  exact ⟨h.1, h.2.2.1, h.2.2.2.1⟩

/-- C3: when `startRecording()` fails because the VAD library is
unavailable or the microphone permission is denied, a descriptive error
is set, the recording flag stays false, and no partial state persists:
no stream is captured, no detector attached, no audio context opened. -/
theorem C3_start_failure_clean_state (env : StartEnv) (st : ARState)
    (hstream : st.stream = none) (hrec : st.isRecording = false)
    (hvad : st.vad = none) (hctx : st.audioCtx = none)
    (hfail : env.vadAvailable = false ∨ env.micGranted = false) :
    (startRecording env st).error.isSome = true ∧
    (startRecording env st).isRecording = false ∧
    (startRecording env st).stream = none ∧
    (startRecording env st).vad = none ∧
    (startRecording env st).audioCtx = none := by
  rcases hfail with h | h
  · simp [startRecording, h, hstream, hrec, hvad, hctx]
  · cases hva : env.vadAvailable <;>
      simp [startRecording, h, hva, hstream, hrec, hvad, hctx]

/-- Witness for C3: the VAD library missing on a fresh state. -/
theorem C3_start_failure_clean_state_witness :
    (startRecording ⟨false, true, true⟩ ARState.init).error.isSome = true ∧
    (startRecording ⟨false, true, true⟩ ARState.init).isRecording = false ∧
    (startRecording ⟨false, true, true⟩ ARState.init).stream = none :=
  have h := C3_start_failure_clean_state ⟨false, true, true⟩ ARState.init
    rfl rfl rfl rfl (Or.inl rfl)
  ⟨h.1, h.2.1, h.2.2.1⟩

/-- C4 counterexample: `stopRecording()` does not guard the detector
halt, so when `pause()` throws, the tracks of the captured stream are
not stopped and the stream reference is not cleared — refuting "every
one of these steps executes even if an earlier step fails". -/
theorem C4_counterexample_halt_throw_skips_teardown :
    (stopRecording ⟨true, none, true, true, some ⟨true⟩, some [⟨false⟩], some false⟩).2 =
      [⟨false⟩] ∧
    (stopRecording ⟨true, none, true, true, some ⟨true⟩, some [⟨false⟩], some false⟩).1.stream =
      some [⟨false⟩] ∧
    (stopRecording ⟨true, none, true, true, some ⟨true⟩, some [⟨false⟩], some false⟩).1.isRecording =
      true := by
  decide

/-- C4 (amended): `stopRecording()` performs, in order: halt the
detector, stop every media track, close the audio-analysis context, and
clear the analyser and flags; a failing context close is caught and
cannot prevent the remaining steps, but a throwing detector halt aborts
everything after it.  Whenever the detector halt does not throw, every
track of the previously captured stream is stopped, no stream or
context stays open, and the recording/speech flags and analyser are
cleared. -/
theorem C4_stop_teardown_when_halt_returns (st : ARState)
    (h : ∀ v, st.vad = some v → v.pauseThrows = false) :
    (stopRecording st).1 =
      { isRecording := false, error := st.error, analyser := false,
        isSpeechDetected := false, vad := none, stream := none, audioCtx := none } ∧
    (∀ t ∈ (stopRecording st).2, t.stopped = true) := by
  have hall : ∀ (xs : List Track) (t : Track),
      t ∈ xs.map (fun _ => (⟨true⟩ : Track)) → t.stopped = true := by
    intro xs t ht
    rw [List.mem_map] at ht
    obtain ⟨x, _, rfl⟩ := ht
    rfl
  cases hv : st.vad with
  | none =>
      have h2 : (stopRecording st).2 =
          (st.stream.getD []).map (fun _ => (⟨true⟩ : Track)) := by
        simp [stopRecording, hv]
      constructor
      · simp [stopRecording, stopRest, hv]
      · rw [h2]
        exact hall _
  | some v =>
      have hpt : v.pauseThrows = false := h v hv
      have h2 : (stopRecording st).2 =
          (st.stream.getD []).map (fun _ => (⟨true⟩ : Track)) := by
        simp [stopRecording, hv, hpt]
      constructor
      · simp [stopRecording, stopRest, hv, hpt]
      · rw [h2]
        exact hall _

/-- Witness for the amended C4: a recording state with two live tracks,
a non-throwing detector and a context whose close fails. -/
theorem C4_stop_teardown_when_halt_returns_witness :
    (stopRecording ⟨true, none, true, true, some ⟨false⟩, some [⟨false⟩, ⟨false⟩], some true⟩).1 =
      ⟨false, none, false, false, none, none, none⟩ ∧
    ∀ t ∈ (stopRecording ⟨true, none, true, true, some ⟨false⟩, some [⟨false⟩, ⟨false⟩], some true⟩).2,
      t.stopped = true :=
  C4_stop_teardown_when_halt_returns
    ⟨true, none, true, true, some ⟨false⟩, some [⟨false⟩, ⟨false⟩], some true⟩
    (fun v hv => by cases hv; rfl)

end CallAgent
